import Mathlib

/-!
Shallow embedding of the `Tracked` repository (src/src/value.rs and
src/src/reference.rs): two dirty-flag value wrappers. Rust methods taking
`&mut self` become state transformers returning the result paired with the
updated wrapper state; `&self` methods become pure functions of the state.
Rust `PartialEq` on the wrapped type is modelled by `DecidableEq`.
-/

/-- State of `Tracked<T>` from src/src/value.rs: a `fresh` flag and the
stored value `val`. -/
structure Tracked (T : Type) where
  fresh : Bool
  val : T
  deriving DecidableEq, Repr

/-- Embeds `Tracked::new` (value.rs): constructs with `fresh = true`. -/
def Tracked.new {T : Type} (val : T) : Tracked T :=
  { fresh := true, val := val }

/-- Embeds `Tracked::set` (value.rs): if the new value differs from the
stored one, replace it and set `fresh = true`; otherwise leave the state
untouched. -/
def Tracked.set {T : Type} [DecidableEq T] (t : Tracked T) (val : T) : Tracked T :=
  if t.val ≠ val then { val := val, fresh := true } else t

/-- Embeds `Tracked::get` (value.rs): sets `fresh = false` and returns a
copy of the stored value; result paired with the updated state. -/
def Tracked.get {T : Type} (t : Tracked T) : T × Tracked T :=
  (t.val, { t with fresh := false })

/-- Embeds `Tracked::get_if_fresh` (value.rs): if fresh, behaves like
`get` wrapped in `some`; otherwise returns `none` and leaves the state
unchanged. -/
def Tracked.get_if_fresh {T : Type} (t : Tracked T) : Option T × Tracked T :=
  if t.fresh then
    let r := t.get
    (some r.1, r.2)
  else (none, t)

/-- Embeds `Tracked::peek` (value.rs): returns the stored value without
touching the state. -/
def Tracked.peek {T : Type} (t : Tracked T) : T :=
  t.val

/-- Embeds `Tracked::is_fresh` (value.rs): returns the flag. -/
def Tracked.is_fresh {T : Type} (t : Tracked T) : Bool :=
  t.fresh

/-- Embeds `impl Default for Tracked` (value.rs): `Tracked::new(T::default())`. -/
def Tracked.mkDefault {T : Type} [Inhabited T] : Tracked T :=
  Tracked.new default

/-- State of `TrackedRef<T>` from src/src/reference.rs: a `fresh` flag and
the stored value `val`. -/
structure TrackedRef (T : Type) where
  fresh : Bool
  val : T
  deriving DecidableEq, Repr

/-- Embeds `TrackedRef::new` (reference.rs): constructs with `fresh = true`. -/
def TrackedRef.new {T : Type} (val : T) : TrackedRef T :=
  { fresh := true, val := val }

/-- Embeds `TrackedRef::get` (reference.rs): sets `fresh = false` and
returns (the referent of) a shared reference to the stored value. -/
def TrackedRef.get {T : Type} (t : TrackedRef T) : T × TrackedRef T :=
  (t.val, { t with fresh := false })

/-- Embeds `TrackedRef::get_mut` (reference.rs): sets `fresh = true` and
returns (the referent of) a mutable reference to the stored value; the
call itself does not modify `val`. -/
def TrackedRef.get_mut {T : Type} (t : TrackedRef T) : T × TrackedRef T :=
  (t.val, { t with fresh := true })

/-- Embeds `TrackedRef::get_if_fresh` (reference.rs): if fresh, delegates
to `get` wrapped in `some`; otherwise returns `none`, state unchanged. -/
def TrackedRef.get_if_fresh {T : Type} (t : TrackedRef T) : Option T × TrackedRef T :=
  if t.fresh then
    let r := t.get
    (some r.1, r.2)
  else (none, t)

/-- Embeds `TrackedRef::peek` (reference.rs): returns the stored value
without touching the state. -/
def TrackedRef.peek {T : Type} (t : TrackedRef T) : T :=
  t.val

/-- Embeds `TrackedRef::is_fresh` (reference.rs): returns the flag. -/
def TrackedRef.is_fresh {T : Type} (t : TrackedRef T) : Bool :=
  t.fresh

/-- Embeds `TrackedRefSet::set for TrackedRef` (reference.rs): same
compare-and-set as `Tracked.set`. -/
def TrackedRef.set {T : Type} [DecidableEq T] (t : TrackedRef T) (val : T) : TrackedRef T :=
  if t.val ≠ val then { val := val, fresh := true } else t

/-- Embeds `impl Clone for TrackedRef` (reference.rs): a new wrapper with
a duplicate of `val` and the same `fresh` flag; duplication of `T` is the
identity in this embedding. -/
def TrackedRef.clone {T : Type} (t : TrackedRef T) : TrackedRef T :=
  { fresh := t.fresh, val := t.val }

/-- One invocation of a shared operation (those both variants offer):
`set`, `get`, `get_if_fresh`, `peek`, `is_fresh`. -/
inductive Op (T : Type) where
  | setOp (v : T)
  | getOp
  | getIfFreshOp
  | peekOp
  | isFreshOp
  deriving DecidableEq, Repr

/-- The value an operation returns: unit for `set`, a value for `get` and
`peek`, an optional value for `get_if_fresh`, a flag for `is_fresh`. -/
inductive Out (T : Type) where
  | unit
  | value (v : T)
  | opt (o : Option T)
  | flag (b : Bool)
  deriving DecidableEq, Repr

/-- Runs one shared operation on a `Tracked` wrapper, yielding the
returned value and the updated state. -/
def Tracked.step {T : Type} [DecidableEq T] (t : Tracked T) : Op T → Out T × Tracked T
  | Op.setOp v => (Out.unit, t.set v)
  | Op.getOp => (Out.value (t.get).1, (t.get).2)
  | Op.getIfFreshOp => (Out.opt (t.get_if_fresh).1, (t.get_if_fresh).2)
  | Op.peekOp => (Out.value t.peek, t)
  | Op.isFreshOp => (Out.flag t.is_fresh, t)

/-- Runs a sequence of shared operations on a `Tracked` wrapper, yielding
the list of returned values and the final state. -/
def Tracked.run {T : Type} [DecidableEq T] (t : Tracked T) : List (Op T) → List (Out T) × Tracked T
  | [] => ([], t)
  | op :: ops =>
    let s := t.step op
    let r := s.2.run ops
    (s.1 :: r.1, r.2)

/-- Runs one shared operation on a `TrackedRef` wrapper, yielding the
returned value (the referent, where the code returns a reference) and the
updated state. -/
def TrackedRef.step {T : Type} [DecidableEq T] (t : TrackedRef T) : Op T → Out T × TrackedRef T
  | Op.setOp v => (Out.unit, t.set v)
  | Op.getOp => (Out.value (t.get).1, (t.get).2)
  | Op.getIfFreshOp => (Out.opt (t.get_if_fresh).1, (t.get_if_fresh).2)
  | Op.peekOp => (Out.value t.peek, t)
  | Op.isFreshOp => (Out.flag t.is_fresh, t)

/-- Runs a sequence of shared operations on a `TrackedRef` wrapper. -/
def TrackedRef.run {T : Type} [DecidableEq T] (t : TrackedRef T) : List (Op T) → List (Out T) × TrackedRef T
  | [] => ([], t)
  | op :: ops =>
    let s := t.step op
    let r := s.2.run ops
    (s.1 :: r.1, r.2)

/-- The field-for-field correspondence between the two variants. -/
def Tracked.toRef {T : Type} (t : Tracked T) : TrackedRef T :=
  { fresh := t.fresh, val := t.val }

theorem step_toRef {T : Type} [DecidableEq T] (t : Tracked T) (op : Op T) :
    TrackedRef.step t.toRef op = ((t.step op).1, (t.step op).2.toRef) := by
  cases op <;>
    simp [Tracked.step, TrackedRef.step, Tracked.toRef, Tracked.set, TrackedRef.set,
      Tracked.get, TrackedRef.get, Tracked.get_if_fresh, TrackedRef.get_if_fresh,
      Tracked.peek, TrackedRef.peek, Tracked.is_fresh, TrackedRef.is_fresh] <;>
    split <;> simp

theorem run_toRef {T : Type} [DecidableEq T] (t : Tracked T) (ops : List (Op T)) :
    TrackedRef.run t.toRef ops = ((t.run ops).1, (t.run ops).2.toRef) := by
  induction ops generalizing t with
  | nil => simp [Tracked.run, TrackedRef.run]
  | cons op ops ih =>
    simp [Tracked.run, TrackedRef.run, step_toRef, ih]

/-- C1: for both variants, calling `set` with a value equal (under the
type's equality) to the currently stored value leaves the whole wrapper
state — the fresh flag and the stored value — unchanged. -/
theorem claim_C1_set_equal_noop {T : Type} [DecidableEq T]
    (t : Tracked T) (r : TrackedRef T) (v w : T)
    (hv : v = t.val) (hw : w = r.val) :
    t.set v = t ∧ r.set w = r := by
  subst hv hw
  constructor <;> simp [Tracked.set, TrackedRef.set]

/-- Witness for C1 at a concrete input: setting `5` on a stale wrapper
holding `5` changes nothing, for both variants. -/
theorem claim_C1_witness :
    Tracked.set { fresh := false, val := (5 : Nat) } 5 = { fresh := false, val := 5 } ∧
    TrackedRef.set { fresh := false, val := (5 : Nat) } 5 = { fresh := false, val := 5 } :=
  claim_C1_set_equal_noop { fresh := false, val := 5 } { fresh := false, val := 5 } 5 5 rfl rfl

/-- C2: for both variants, if the argument differs from the stored value,
`set` replaces the stored value and sets the fresh flag, regardless of the
prior flag. -/
theorem claim_C2_set_different {T : Type} [DecidableEq T]
    (t : Tracked T) (r : TrackedRef T) (v w : T)
    (hv : t.val ≠ v) (hw : r.val ≠ w) :
    (t.set v).is_fresh = true ∧ (t.set v).peek = v ∧
      (r.set w).is_fresh = true ∧ (r.set w).peek = w := by
  simp [Tracked.set, TrackedRef.set, Tracked.is_fresh, TrackedRef.is_fresh,
    Tracked.peek, TrackedRef.peek, hv, hw]

/-- Witness for C2 at a concrete input: setting `6` on a stale wrapper
holding `5` marks it fresh and stores `6`, for both variants. -/
theorem claim_C2_witness :
    (Tracked.set { fresh := false, val := (5 : Nat) } 6).is_fresh = true ∧
    (Tracked.set { fresh := false, val := (5 : Nat) } 6).peek = 6 ∧
    (TrackedRef.set { fresh := false, val := (5 : Nat) } 6).is_fresh = true ∧
    (TrackedRef.set { fresh := false, val := (5 : Nat) } 6).peek = 6 :=
  claim_C2_set_different { fresh := false, val := 5 } { fresh := false, val := 5 } 6 6
    (by decide) (by decide)

/-- C3: for both variants and every state, `get` returns the currently
stored value, afterwards the fresh flag is false regardless of its prior
value, and the stored value is not modified. -/
theorem claim_C3_get_consumes {T : Type} (t : Tracked T) (r : TrackedRef T) :
    (t.get).1 = t.val ∧ ((t.get).2).is_fresh = false ∧ ((t.get).2).val = t.val ∧
      (r.get).1 = r.val ∧ ((r.get).2).is_fresh = false ∧ ((r.get).2).val = r.val := by
  simp [Tracked.get, TrackedRef.get, Tracked.is_fresh, TrackedRef.is_fresh]

/-- C4: for both variants, `get_if_fresh` returns `some` of the current
value and clears the flag exactly when called in a fresh state, and in a
stale state it returns `none` with the entire state unchanged. -/
theorem claim_C4_get_if_fresh {T : Type} (t : Tracked T) (r : TrackedRef T) :
    (t.is_fresh = true → t.get_if_fresh = (some t.val, { t with fresh := false })) ∧
      (t.is_fresh = false → t.get_if_fresh = (none, t)) ∧
      (r.is_fresh = true → r.get_if_fresh = (some r.val, { r with fresh := false })) ∧
      (r.is_fresh = false → r.get_if_fresh = (none, r)) := by
  refine ⟨fun h => ?_, fun h => ?_, fun h => ?_, fun h => ?_⟩ <;>
    simp_all [Tracked.get_if_fresh, TrackedRef.get_if_fresh, Tracked.get, TrackedRef.get,
      Tracked.is_fresh, TrackedRef.is_fresh]

/-- Witness for C4 at concrete inputs: on a fresh wrapper holding `5` the
call yields `some 5` and a stale state; on the resulting stale state it
yields `none` and changes nothing — for both variants. -/
theorem claim_C4_witness :
    Tracked.get_if_fresh { fresh := true, val := (5 : Nat) } =
      (some 5, { fresh := false, val := 5 }) ∧
    Tracked.get_if_fresh { fresh := false, val := (5 : Nat) } =
      (none, { fresh := false, val := 5 }) ∧
    TrackedRef.get_if_fresh { fresh := true, val := (5 : Nat) } =
      (some 5, { fresh := false, val := 5 }) ∧
    TrackedRef.get_if_fresh { fresh := false, val := (5 : Nat) } =
      (none, { fresh := false, val := 5 }) :=
  ⟨(claim_C4_get_if_fresh { fresh := true, val := 5 } { fresh := true, val := 5 }).1 rfl,
   (claim_C4_get_if_fresh { fresh := false, val := 5 } { fresh := false, val := 5 }).2.1 rfl,
   (claim_C4_get_if_fresh { fresh := true, val := 5 } { fresh := true, val := 5 }).2.2.1 rfl,
   (claim_C4_get_if_fresh { fresh := false, val := 5 } { fresh := false, val := 5 }).2.2.2 rfl⟩

/-- C5: for `TrackedRef`, every `get_mut` call leaves the fresh flag true
afterwards, unconditionally, and the call itself does not alter the stored
value; the returned referent is the current value. -/
theorem claim_C5_get_mut_marks_fresh {T : Type} (r : TrackedRef T) :
    ((r.get_mut).2).is_fresh = true ∧ ((r.get_mut).2).val = r.val ∧
      (r.get_mut).1 = r.val := by
  simp [TrackedRef.get_mut, TrackedRef.is_fresh]

/-- C6: for both variants and every initial value, a wrapper built by
`new` is fresh and peeks to that value. -/
theorem claim_C6_new_fresh {T : Type} (v : T) :
    (Tracked.new v).is_fresh = true ∧ (Tracked.new v).peek = v ∧
      (TrackedRef.new v).is_fresh = true ∧ (TrackedRef.new v).peek = v := by
  simp [Tracked.new, TrackedRef.new, Tracked.is_fresh, TrackedRef.is_fresh,
    Tracked.peek, TrackedRef.peek]

/-- C7: for both variants, `peek` and `is_fresh` are pure observations:
run as operations they return the stored value and the flag and leave the
state exactly as it was. -/
theorem claim_C7_peek_is_fresh_pure {T : Type} [DecidableEq T]
    (t : Tracked T) (r : TrackedRef T) :
    t.step Op.peekOp = (Out.value t.val, t) ∧
      t.step Op.isFreshOp = (Out.flag t.fresh, t) ∧
      r.step Op.peekOp = (Out.value r.val, r) ∧
      r.step Op.isFreshOp = (Out.flag r.fresh, r) := by
  simp [Tracked.step, TrackedRef.step, Tracked.peek, TrackedRef.peek,
    Tracked.is_fresh, TrackedRef.is_fresh]

/-- C8: cloning a `TrackedRef` yields a wrapper with the same stored value
and the very same fresh flag; `clone` is a pure function of the original
state, so the original is untouched and its freshness is not consumed. -/
theorem claim_C8_clone {T : Type} (r : TrackedRef T) :
    (r.clone).val = r.val ∧ (r.clone).fresh = r.fresh := by
  simp [TrackedRef.clone]

/-- C9: the two variants implement the same state machine: running any
sequence of shared operations from the same initial value produces equal
lists of returned values and final states equal field for field. -/
theorem claim_C9_variants_equivalent {T : Type} [DecidableEq T]
    (v : T) (ops : List (Op T)) :
    ((TrackedRef.new v).run ops).1 = ((Tracked.new v).run ops).1 ∧
      (((TrackedRef.new v).run ops).2).fresh = (((Tracked.new v).run ops).2).fresh ∧
      (((TrackedRef.new v).run ops).2).val = (((Tracked.new v).run ops).2).val := by
  have h : TrackedRef.new v = (Tracked.new v).toRef := by
    simp [Tracked.new, TrackedRef.new, Tracked.toRef]
  rw [h, run_toRef]
  simp [Tracked.toRef]

/-- C10: for both variants, `set` never clears freshness: if the wrapper
is fresh before the call it is fresh after, whatever the argument. -/
theorem claim_C10_set_monotone {T : Type} [DecidableEq T]
    (t : Tracked T) (r : TrackedRef T) (v w : T)
    (ht : t.is_fresh = true) (hr : r.is_fresh = true) :
    (t.set v).is_fresh = true ∧ (r.set w).is_fresh = true := by
  constructor <;>
    [skip; skip] <;>
    simp only [Tracked.set, TrackedRef.set] <;>
    split <;> simp_all [Tracked.is_fresh, TrackedRef.is_fresh]

/-- Witness for C10 at a concrete input: setting `5` (equal) and `6`
(different) on a fresh wrapper holding `5` both leave it fresh. -/
theorem claim_C10_witness :
    (Tracked.set { fresh := true, val := (5 : Nat) } 5).is_fresh = true ∧
    (TrackedRef.set { fresh := true, val := (5 : Nat) } 6).is_fresh = true :=
  claim_C10_set_monotone { fresh := true, val := 5 } { fresh := true, val := 5 } 5 6 rfl rfl
